import Mathlib

/-!
Verification development for the P&L reconciliation agent (src/app.py).

The program is a chat-style dashboard over a tabular reconciliation dataset
("MCF" deal records).  The parts relevant to the frozen claims are embedded
shallowly below:

* Python string helpers that the code relies on (`str.lower`, `str.strip`,
  `in` substring tests, `str.split()`, the MCF-key regex, the quoted-text
  regex) are modelled over `List Char`;
* `search_in_dataframe` (the 3-tier search utility) over a generic dataframe
  whose cells are stringified, and over typed records via a cell getter;
* the numeric coercion of `load_master_reconciliation`
  (`pd.to_numeric(errors='coerce').fillna(0)`);
* `execute_sheet_action` (the sheet mutator) on a live-sheet grid, with the
  individual `update_cell` calls recorded as an explicit write log;
* `chat_with_ai` (the intent classifier / responder), returning a structured
  response together with the write log of any executed action.

Numbers are modelled as rationals (the Python code uses floats; all the
quantities the claims speak about are exact small decimals, where float and
rational arithmetic agree).
-/

namespace PLRecon

/-! ## Python string primitives -/

/-- Model of Python `str.lower()` (ASCII case folding). -/
def pyLower (s : String) : String := String.mk (s.data.map Char.toLower)

/-- Model of Python `str.upper()` (ASCII case folding). -/
def pyUpper (s : String) : String := String.mk (s.data.map Char.toUpper)

/-- Drop whitespace from both ends of a character list. -/
def stripChars (cs : List Char) : List Char :=
  ((cs.dropWhile Char.isWhitespace).reverse.dropWhile Char.isWhitespace).reverse

/-- Model of Python `str.strip()`. -/
def pyStrip (s : String) : String := String.mk (stripChars s.data)

/-- Substring occurrence at any position (including the empty suffix). -/
def listInfix (needle : List Char) : List Char → Bool
  | [] => needle.isEmpty
  | c :: cs => needle.isPrefixOf (c :: cs) || listInfix needle cs

/-- Model of the Python substring test `needle in hay`. -/
def pyIn (needle hay : String) : Bool := listInfix needle.data hay.data

/-- Accumulator-based whitespace splitter (`acc` holds the current word,
reversed). -/
def pySplitAux : List Char → List Char → List String
  | [], acc => if acc.isEmpty then [] else [String.mk acc.reverse]
  | c :: cs, acc =>
    if c.isWhitespace then
      if acc.isEmpty then pySplitAux cs []
      else String.mk acc.reverse :: pySplitAux cs []
    else pySplitAux cs (c :: acc)

/-- Model of Python `str.split()` with no argument: split on whitespace runs,
dropping empty pieces. -/
def pySplit (s : String) : List String := pySplitAux s.data []

/-! ## The search utility (`search_in_dataframe`, src/app.py lines 796-824)

The function stringifies the chosen column (`astype(str)`), so for its
purposes a dataframe is a list of rows of string cells.  The three tiers are
tried in order, returning at the first non-empty result. -/

/-- A generic dataframe row: association list from column name to the
stringified cell. -/
abbrev DfRow := List (String × String)

/-- A generic dataframe: its column names and its rows, in insertion order. -/
structure Df where
  cols : List String
  rows : List DfRow

/-- Cell access on a generic row (`df[column]` on a well-formed frame). -/
def dfCell (row : DfRow) (column : String) : String :=
  (List.lookup column row).getD ""

/-- The 3-tier search of `search_in_dataframe`, over an arbitrary cell
getter, translated line by line:
`search_term_lower = str(search_term).lower().strip()`,
then exact equality, then substring containment (`regex=False`),
then — only for multi-word terms — all-words containment. -/
def tieredSearch (get : α → String) (rows : List α) (searchTerm : String) : List α :=
  let q := pyStrip (pyLower searchTerm)
  let exactM := rows.filter (fun r => pyLower (get r) == q)
  if exactM.isEmpty then
    let containsM := rows.filter (fun r => pyIn q (pyLower (get r)))
    if containsM.isEmpty then
      let ws := pySplit q
      if ws.length > 1 then
        let wordM := rows.filter (fun r => ws.all (fun w => pyIn w (pyLower (get r))))
        if wordM.isEmpty then [] else wordM
      else []
    else containsM
  else exactM

/-- `search_in_dataframe(df, column, search_term)`: empty result for an
unknown column, otherwise the tiered search on that column. -/
def search_in_dataframe (df : Df) (column : String) (searchTerm : String) : List DfRow :=
  if df.cols.contains column then
    tieredSearch (fun row => dfCell row column) df.rows searchTerm
  else []

/-! Specification-side description of the search, following the words of the
spec/claim: a list of candidate tiers, stopping at the first non-empty one. -/

/-- First non-empty list among the candidates, or `[]`. -/
def firstNonempty : List (List α) → List α
  | [] => []
  | l :: ls => if l.isEmpty then firstNonempty ls else l

/-- The C2 search algorithm exactly as the claim states it: every tier uses
the raw lowercased query (no whitespace stripping). -/
def claimSearchStated (df : Df) (column : String) (q : String) : List DfRow :=
  if df.cols.contains column then
    let ql := pyLower q
    let tier1 := df.rows.filter (fun r => pyLower (dfCell r column) == ql)
    let tier2 := df.rows.filter (fun r => pyIn ql (pyLower (dfCell r column)))
    let tier3 :=
      if (pySplit ql).length > 1 then
        df.rows.filter (fun r => (pySplit ql).all (fun w => pyIn w (pyLower (dfCell r column))))
      else []
    firstNonempty [tier1, tier2, tier3]
  else []

/-- The C2 search algorithm as amended: the tiers compare against the
whitespace-stripped lowercased query, as the code normalises it. -/
def claimSearchAmended (df : Df) (column : String) (q : String) : List DfRow :=
  if df.cols.contains column then
    let ql := pyStrip (pyLower q)
    let tier1 := df.rows.filter (fun r => pyLower (dfCell r column) == ql)
    let tier2 := df.rows.filter (fun r => pyIn ql (pyLower (dfCell r column)))
    let tier3 :=
      if (pySplit ql).length > 1 then
        df.rows.filter (fun r => (pySplit ql).all (fun w => pyIn w (pyLower (dfCell r column))))
      else []
    firstNonempty [tier1, tier2, tier3]
  else []

theorem tieredSearch_eq_tiers (get : α → String) (rows : List α) (q : String) :
    tieredSearch get rows q =
      firstNonempty
        [rows.filter (fun r => pyLower (get r) == pyStrip (pyLower q)),
         rows.filter (fun r => pyIn (pyStrip (pyLower q)) (pyLower (get r))),
         if (pySplit (pyStrip (pyLower q))).length > 1 then
           rows.filter (fun r =>
             (pySplit (pyStrip (pyLower q))).all (fun w => pyIn w (pyLower (get r))))
         else []] := by
  by_cases h1 : (rows.filter (fun r => pyLower (get r) == pyStrip (pyLower q))).isEmpty
  · by_cases h2 : (rows.filter
        (fun r => pyIn (pyStrip (pyLower q)) (pyLower (get r)))).isEmpty
    · by_cases h3 : (pySplit (pyStrip (pyLower q))).length > 1
      · simp only [tieredSearch, firstNonempty, h1, h2, h3, if_true, if_pos]
      · simp only [tieredSearch, firstNonempty, h1, h2, h3, if_true, if_neg, if_pos]
        simp [h3]
    · simp only [tieredSearch, firstNonempty, h1, if_pos]
      simp only [Bool.not_eq_true] at h2
      simp [h2]
  · simp only [Bool.not_eq_true] at h1
    simp [tieredSearch, firstNonempty, h1]

theorem tieredSearch_sublist (get : α → String) (rows : List α) (q : String) :
    (tieredSearch get rows q).Sublist rows := by
  rw [tieredSearch_eq_tiers]
  simp only [firstNonempty]
  repeat' split
  all_goals
    first
      | exact List.nil_sublist rows
      | exact List.filter_sublist rows

/-- C2 (amended): for every table, target column and query, the search
returns exactly the first non-empty tier among case-insensitive exact
equality, case-insensitive substring containment, and (for queries of two or
more space-separated words) all-words containment — all against the
whitespace-stripped lowercased query — and the returned rows are a sublist
of the table's rows, so insertion order is preserved. -/
theorem C2_search_tiering (df : Df) (column : String) (q : String) :
    search_in_dataframe df column q = claimSearchAmended df column q ∧
      (search_in_dataframe df column q).Sublist df.rows := by
  constructor
  · unfold search_in_dataframe claimSearchAmended
    by_cases hc : df.cols.contains column
    · simp only [hc, if_true]
      exact tieredSearch_eq_tiers _ _ _
    · simp only [Bool.not_eq_true] at hc
      simp only [hc, Bool.false_eq_true, if_false]
  · unfold search_in_dataframe
    by_cases hc : df.cols.contains column
    · simp only [hc, if_true]
      exact tieredSearch_sublist _ _ _
    · simp only [Bool.not_eq_true] at hc
      simp only [hc, Bool.false_eq_true, if_false]
      exact List.nil_sublist _

/-- A one-row table whose only cell is "bob". -/
def c2Df : Df := ⟨["Name"], [[("Name", "bob")]]⟩

/-- C2 counterexample: for the query "bob " (trailing space) the claim as
stated — tiers matching against the (unstripped) query — yields the empty
set, but the code strips the query and returns the row, so the claim's
description of the result is false at this input. -/
theorem C2_search_tiering_counterexample :
    search_in_dataframe c2Df "Name" "bob " = [[("Name", "bob")]] ∧
      claimSearchStated c2Df "Name" "bob " = [] := by
  constructor <;> decide

/-- C10: for every table and query, if the target column name is not among
the table's columns, the search returns the empty result set (the function
is total, so no exception is possible). -/
theorem C10_unknown_column (df : Df) (column q : String)
    (h : df.cols.contains column = false) :
    search_in_dataframe df column q = [] := by
  simp only [search_in_dataframe, h, Bool.false_eq_true, if_false]

theorem C10_unknown_column_witness :
    c2Df.cols.contains "Phone" = false ∧
      search_in_dataframe c2Df "Phone" "bob" = [] :=
  ⟨by decide, C10_unknown_column c2Df "Phone" "bob" (by decide)⟩

/-! ## Numeric coercion (`load_master_reconciliation`, src/app.py lines 657-664)

`df[col] = pd.to_numeric(df[col], errors='coerce').fillna(0)` turns every
blank or non-numeric cell into 0 and leaves already-numeric cells alone. -/

/-- A worksheet cell as delivered by `get_all_records`: either already
numeric or raw text. -/
inductive CellValue
  | num (q : ℚ)
  | str (s : String)
deriving DecidableEq

/-- Value of a string of decimal digits (most significant first). -/
def digitsToNat (ds : List Char) : ℕ :=
  ds.foldl (fun a c => a * 10 + (c.toNat - 48)) 0

/-- Model of `pd.to_numeric` on a text cell: surrounding whitespace, an
optional sign, decimal digits with an optional fractional part; anything
else fails (NaN under `errors='coerce'`).  Exponent notation is not
modelled. -/
def parse_numeric (s : String) : Option ℚ :=
  let signed : ℚ × List Char :=
    match stripChars s.data with
    | '-' :: t => (-1, t)
    | '+' :: t => (1, t)
    | cs => (1, cs)
  let ip := signed.2.takeWhile Char.isDigit
  match signed.2.drop ip.length with
  | [] => if ip.isEmpty then none else some (signed.1 * digitsToNat ip)
  | '.' :: t =>
    let fp := t.takeWhile Char.isDigit
    if (t.drop fp.length).isEmpty && !(ip.isEmpty && fp.isEmpty) then
      some (signed.1 *
        ((digitsToNat ip : ℚ) + (digitsToNat fp : ℚ) / (10 : ℚ) ^ fp.length))
    else none
  | _ => none

/-- `pd.to_numeric(cell, errors='coerce')` followed by `fillna(0)`. -/
def to_numeric_fillna0 : CellValue → ℚ
  | .num q => q
  | .str s => (parse_numeric s).getD 0

/-- The per-column coercion applied by `load_master_reconciliation`. -/
def coerce_numeric_column (col : List CellValue) : List ℚ :=
  col.map to_numeric_fillna0

/-- C8: the numeric coercion is idempotent — re-parsing a column that has
already been coerced (so all its cells are numeric) returns the same
values; parsing "0" yields 0 and parsing "" (blank, hence NaN, hence
filled) yields 0. -/
theorem C8_coercion_idempotent (col : List CellValue) :
    coerce_numeric_column ((coerce_numeric_column col).map CellValue.num) =
        coerce_numeric_column col ∧
      parse_numeric "0" = some 0 ∧
      parse_numeric "" = none ∧
      to_numeric_fillna0 (CellValue.str "0") = 0 ∧
      to_numeric_fillna0 (CellValue.str "") = 0 := by
  refine ⟨?_, by with_unfolding_all decide, by with_unfolding_all decide,
    by with_unfolding_all decide, by with_unfolding_all decide⟩
  simp [coerce_numeric_column, List.map_map, Function.comp, to_numeric_fillna0]

/-! ## Currency formatting (Python format specs ",.0f" and ".1f") -/

/-- Insert thousands separators into a digit list given least-significant
digit first. -/
def commaGroupRev : List Char → List Char
  | c1 :: c2 :: c3 :: c4 :: rest => c1 :: c2 :: c3 :: ',' :: commaGroupRev (c4 :: rest)
  | l => l

/-- Format a natural number with thousands separators. -/
def fmtNatGrouped (n : ℕ) : String :=
  String.mk (commaGroupRev (Nat.toDigits 10 n).reverse).reverse

/-- Round half to even, as Python float formatting does. -/
def roundHalfEven (q : ℚ) : ℤ :=
  let f := ⌊q⌋
  if q - f < 1/2 then f
  else if 1/2 < q - f then f + 1
  else if f % 2 = 0 then f else f + 1

/-- Python format spec ",.0f": round to an integer, group thousands. -/
def fmtMoney (q : ℚ) : String :=
  let n := roundHalfEven q
  (if n < 0 then "-" else "") ++ fmtNatGrouped n.natAbs

/-- Python format spec ".1f": one decimal place, no grouping. -/
def fmt1f (q : ℚ) : String :=
  let n := roundHalfEven (q * 10)
  (if n < 0 then "-" else "") ++ String.mk (Nat.toDigits 10 (n.natAbs / 10)) ++
    "." ++ String.mk (Nat.toDigits 10 (n.natAbs % 10))

/-! ## Typed records of the Master Reconciliation snapshot (`results_df`)

One row of the loaded table.  The numeric columns are rationals after the
coercion above; the variance columns may be absent from the frame
(`'CP1 Payout Variance' in row.index`), hence `Option`. -/

structure MCFRecord where
  mcfNumber : String := ""
  customerName : String := ""
  loanProduct : String := ""
  loanAmount : ℚ := 0
  cp1Name : String := ""
  cp1Code : String := ""
  expectedCp1Payout : ℚ := 0
  actualCp1Payout : ℚ := 0
  cp2Name : String := ""
  cp2Code : String := ""
  expectedCp2Payout : ℚ := 0
  actualCp2Payout : ℚ := 0
  netProfitLoss : ℚ := 0
  disbursedGrossRevenue : ℚ := 0
  expectedDisbursedGrossRevenue : ℚ := 0
  taxableAmountInvoice : ℚ := 0
  cp1PayoutVariance : Option ℚ := none
  cp2PayoutVariance : Option ℚ := none
  revenueVariance : Option ℚ := none
  payoutStatus : String := ""
deriving DecidableEq

/-- `results_df[results_df['MCF Number'] == key].iloc[0]`: the first
matching snapshot record, if any. -/
def findRec (df : List MCFRecord) (key : String) : Option MCFRecord :=
  df.find? (fun r => r.mcfNumber == key)

/-! ## The sheet mutator (`execute_sheet_action`, src/app.py lines 669-794) -/

/-- One live-sheet row as returned by `ws.get_all_values()`.  gspread pads
rows to a rectangular grid, so every row has at least the first (key)
column; `key` is `row[0]` and `rest` the remaining cells. -/
structure LiveRow where
  key : String
  rest : List String := []
deriving DecidableEq

/-- One `ws.update_cell(row, col, value)` call (1-based coordinates). -/
structure Write where
  row : ℕ
  col : ℕ
  val : CellValue
deriving DecidableEq

inductive OpStatus
  | success
  | warning
  | error
deriving DecidableEq

/-- One structured per-operation result of the mutator. -/
structure OpResult where
  status : OpStatus
  message : String
  details : List (String × String) := []
deriving DecidableEq

/-- The three mutation descriptors of the mutator. -/
inductive SheetAction
  | coverLoss (lossMcf profitMcf : String)
  | markReviewed (mcf : String)
  | updateValue (mcf column value : String)
deriving DecidableEq

/-- `headers.index(x)`; `none` models the ValueError raised when absent
(`x in headers` is `(pyIndex headers x).isSome`). -/
def pyIndex : List String → String → Option ℕ
  | [], _ => none
  | h :: t, x => if h == x then some 0 else (pyIndex t x).map (fun i => i + 1)

/-- The scan `for i, row in enumerate(all_data, 1): if row[0] == key: idx = i`
without a break: the LAST matching 1-based row index survives. -/
def findLastIdx (key : String) : List LiveRow → ℕ → Option ℕ
  | [], _ => none
  | r :: rs, i =>
    match findLastIdx key rs (i + 1) with
    | some j => some j
    | none => if r.key == key then some i else none

/-- The same scan with a `break` at the first match. -/
def findFirstIdx (key : String) : List LiveRow → ℕ → Option ℕ
  | [], _ => none
  | r :: rs, i => if r.key == key then some i else findFirstIdx key rs (i + 1)

/-- `headers = all_data[0]`: the full cell list of the first grid row. -/
def liveHeaders (hrow : LiveRow) : List String := hrow.key :: hrow.rest

/-- `execute_sheet_action(action_type, params, spreadsheet, results_df)`.

Returns the structured result list together with the log of `update_cell`
writes issued, in order.  `allData` is the grid `ws.get_all_values()` (its
first row is the header row); `df` is the snapshot table; `now` stands for
`datetime.now().strftime(...)`.  The source wraps the body in try/except
returning a single error result; the exception paths reachable in the model
are `all_data[0]` on an empty grid (IndexError) and
`headers.index("Adjustment Note")` when that column is absent while
"Adjusted P&L" is present (ValueError). -/
def execute_sheet_action (action : SheetAction) (allData : List LiveRow)
    (df : List MCFRecord) (now : String) : List OpResult × List Write :=
  match allData with
  | [] => ([⟨.error, "❌ Error: list index out of range", []⟩], [])
  | hrow :: _ =>
    let headers := liveHeaders hrow
    match action with
    | .coverLoss lossMcf profitMcf =>
      match findRec df lossMcf, findRec df profitMcf with
      | some lossRow, some profitRow =>
        let lossAmount := |lossRow.netProfitLoss|
        let profitAmount := profitRow.netProfitLoss
        let resolved : Option (ℕ × ℕ × List Write) :=
          match pyIndex headers "Adjusted P&L" with
          | none =>
            some (headers.length + 1, headers.length + 2,
              [⟨1, headers.length + 1, .str "Adjusted P&L"⟩,
               ⟨1, headers.length + 2, .str "Adjustment Note"⟩])
          | some ai =>
            match pyIndex headers "Adjustment Note" with
            | none => none
            | some ni => some (ai + 1, ni + 1, [])
        match resolved with
        | none =>
          ([⟨.error, "❌ Error: \x27Adjustment Note\x27 is not in list", []⟩], [])
        | some (adjCol, noteCol, headerWrites) =>
          match findLastIdx lossMcf allData 1, findLastIdx profitMcf allData 1 with
          | some lossIdx, some profitIdx =>
            if profitAmount ≥ lossAmount then
              ([⟨.success,
                  "✅ Successfully covered loss of ₹" ++ fmtMoney lossAmount ++
                    " from **" ++ lossMcf ++ "** using profit from **" ++
                    profitMcf ++ "**",
                  [("Loss MCF", lossMcf),
                   ("Loss Amount", "₹" ++ fmtMoney lossAmount),
                   ("Profit MCF", profitMcf),
                   ("Profit Used", "₹" ++ fmtMoney lossAmount),
                   ("Remaining Profit", "₹" ++ fmtMoney (profitAmount - lossAmount))]⟩],
               headerWrites ++
                 [⟨lossIdx, adjCol, .num 0⟩,
                  ⟨lossIdx, noteCol, .str ("✅ Covered by " ++ profitMcf ++ " on " ++ now)⟩,
                  ⟨profitIdx, adjCol, .num (profitAmount - lossAmount)⟩,
                  ⟨profitIdx, noteCol, .str ("📤 Covered " ++ lossMcf ++ " on " ++ now)⟩])
            else
              ([⟨.warning,
                  "⚠️ Partially covered ₹" ++ fmtMoney profitAmount ++ " out of ₹" ++
                    fmtMoney lossAmount ++ ". Remaining loss: ₹" ++
                    fmtMoney (lossAmount - profitAmount),
                  [("Loss MCF", lossMcf),
                   ("Total Loss", "₹" ++ fmtMoney lossAmount),
                   ("Covered Amount", "₹" ++ fmtMoney profitAmount),
                   ("Remaining Loss", "₹" ++ fmtMoney (lossAmount - profitAmount))]⟩],
               headerWrites ++
                 [⟨lossIdx, adjCol, .num (-(lossAmount - profitAmount))⟩,
                  ⟨lossIdx, noteCol,
                    .str ("⚠️ Partially covered by " ++ profitMcf ++ " on " ++ now)⟩,
                  ⟨profitIdx, adjCol, .num 0⟩,
                  ⟨profitIdx, noteCol,
                    .str ("📤 Partially covered " ++ lossMcf ++ " on " ++ now)⟩])
          | _, _ => ([], headerWrites)
      | _, _ =>
        ([⟨.error, "❌ MCF numbers not found: " ++ lossMcf ++ " or " ++ profitMcf, []⟩],
         [])
    | .markReviewed mcf =>
      let resolved : ℕ × ℕ × List Write :=
        match pyIndex headers "Review Status" with
        | none =>
          (headers.length + 1, headers.length + 2,
            [⟨1, headers.length + 1, .str "Review Status"⟩,
             ⟨1, headers.length + 2, .str "Review Date"⟩])
        | some si => (si + 1, si + 2, [])
      match findFirstIdx mcf allData 1 with
      | some i =>
        ([⟨.success, "✅ Marked **" ++ mcf ++ "** as reviewed", []⟩],
         resolved.2.2 ++ [⟨i, resolved.1, .str "✅ Reviewed"⟩, ⟨i, resolved.2.1, .str now⟩])
      | none => ([], resolved.2.2)
    | .updateValue mcf column value =>
      match pyIndex headers column with
      | none => ([⟨.error, "❌ Column \x27" ++ column ++ "\x27 not found", []⟩], [])
      | some ci =>
        match findFirstIdx mcf allData 1 with
        | some i =>
          ([⟨.success, "✅ Updated " ++ column ++ " to **" ++ value ++ "** for " ++ mcf,
             []⟩],
           [⟨i, ci + 1, .str value⟩])
        | none => ([], [])

/-- The 1-based column where `cover_loss` writes adjusted values: the
existing "Adjusted P&L" column, or the first freshly appended column. -/
def adjustedCol (headers : List String) : ℕ :=
  match pyIndex headers "Adjusted P&L" with
  | none => headers.length + 1
  | some ai => ai + 1

theorem findFirstIdx_eq_none (k : String) (l : List LiveRow) (i : ℕ)
    (h : ∀ r ∈ l, r.key ≠ k) : findFirstIdx k l i = none := by
  induction l generalizing i with
  | nil => rfl
  | cons r rs ih =>
    have hr : r.key ≠ k := h r (List.mem_cons_self r rs)
    simp only [findFirstIdx]
    rw [if_neg (by simpa using hr)]
    exact ih (i + 1) (fun x hx => h x (List.mem_cons_of_mem r hx))

/-- Outcome shape asserted by C1 for a cover_loss call: the result status
and the two Adjusted P&L cell writes, in the full- and partial-coverage
cases. -/
def coverLossOutcomeOk (out : List OpResult × List Write) (adjc li pi : ℕ)
    (la pa : ℚ) : Prop :=
  if pa ≥ la then
    out.1.map OpResult.status = [OpStatus.success] ∧
      (⟨li, adjc, .num 0⟩ : Write) ∈ out.2 ∧
      (⟨pi, adjc, .num (pa - la)⟩ : Write) ∈ out.2
  else
    out.1.map OpResult.status = [OpStatus.warning] ∧
      (⟨li, adjc, .num (-(la - pa))⟩ : Write) ∈ out.2 ∧
      (⟨pi, adjc, .num 0⟩ : Write) ∈ out.2

/-- C1 (amended): whenever both keys of a `cover_loss` action are in the
snapshot, both occur in the live sheet's first column, and the live header
row is consistent (it does not contain "Adjusted P&L" without "Adjustment
Note"), the mutator behaves as claimed: full coverage writes 0 to the loss
row's Adjusted P&L cell and `profit_amount - loss_amount` to the profit
row's, with a success result; partial coverage writes
`-(loss_amount - profit_amount)` and 0, with a warning result. -/
theorem C1_cover_loss_arithmetic (df : List MCFRecord) (hrow : LiveRow)
    (rows : List LiveRow) (lossMcf profitMcf now : String)
    (lossRow profitRow : MCFRecord) (li pi : ℕ)
    (hl : findRec df lossMcf = some lossRow)
    (hp : findRec df profitMcf = some profitRow)
    (hw : pyIndex (liveHeaders hrow) "Adjusted P&L" ≠ none →
      pyIndex (liveHeaders hrow) "Adjustment Note" ≠ none)
    (hli : findLastIdx lossMcf (hrow :: rows) 1 = some li)
    (hpi : findLastIdx profitMcf (hrow :: rows) 1 = some pi) :
    coverLossOutcomeOk
      (execute_sheet_action (.coverLoss lossMcf profitMcf) (hrow :: rows) df now)
      (adjustedCol (liveHeaders hrow)) li pi
      |lossRow.netProfitLoss| profitRow.netProfitLoss := by
  unfold coverLossOutcomeOk
  simp only [execute_sheet_action, hl, hp, hli, hpi]
  cases ha : pyIndex (liveHeaders hrow) "Adjusted P&L" with
  | none =>
    simp only [adjustedCol, ha]
    split
    · exact ⟨rfl, by simp, by simp⟩
    · exact ⟨rfl, by simp, by simp⟩
  | some ai =>
    have hnote := hw (by simp [ha])
    cases hn : pyIndex (liveHeaders hrow) "Adjustment Note" with
    | none => exact absurd hn hnote
    | some ni =>
      simp only [adjustedCol, ha, hn]
      split
      · exact ⟨rfl, by simp, by simp⟩
      · exact ⟨rfl, by simp, by simp⟩

/-- Concrete snapshot and live sheet for the C1 witness: a loss of 500 and
a profit of 1200, with no adjustment columns yet. -/
def c1Df : List MCFRecord :=
  [{ mcfNumber := "MCF-20250404-1026", netProfitLoss := -500 },
   { mcfNumber := "MCF-20250325-0148", netProfitLoss := 1200 }]

def c1Sheet : List LiveRow :=
  [⟨"MCF Number", ["Net Profit/Loss"]⟩,
   ⟨"MCF-20250404-1026", ["-500"]⟩,
   ⟨"MCF-20250325-0148", ["1200"]⟩]

theorem C1_cover_loss_arithmetic_witness :
    coverLossOutcomeOk
        (execute_sheet_action
          (.coverLoss "MCF-20250404-1026" "MCF-20250325-0148") c1Sheet c1Df
          "2025-01-01 00:00")
        (adjustedCol (liveHeaders ⟨"MCF Number", ["Net Profit/Loss"]⟩)) 2 3
        |(-500 : ℚ)| 1200 ∧
      adjustedCol (liveHeaders ⟨"MCF Number", ["Net Profit/Loss"]⟩) = 3 ∧
      ((1200 : ℚ) ≥ |(-500 : ℚ)| ∧ (1200 : ℚ) - |(-500 : ℚ)| = 700) :=
  ⟨C1_cover_loss_arithmetic c1Df ⟨"MCF Number", ["Net Profit/Loss"]⟩
      [⟨"MCF-20250404-1026", ["-500"]⟩, ⟨"MCF-20250325-0148", ["1200"]⟩]
      "MCF-20250404-1026" "MCF-20250325-0148" "2025-01-01 00:00"
      { mcfNumber := "MCF-20250404-1026", netProfitLoss := -500 }
      { mcfNumber := "MCF-20250325-0148", netProfitLoss := 1200 }
      2 3
      (by with_unfolding_all rfl) (by with_unfolding_all rfl)
      (fun hx => absurd (by with_unfolding_all rfl) hx)
      (by with_unfolding_all rfl) (by with_unfolding_all rfl),
    by with_unfolding_all rfl, by norm_num, by norm_num⟩

/-- C1 counterexample: a live sheet whose header row contains "Adjusted
P&L" but not "Adjustment Note" satisfies all the hypotheses the claim
states (both keys in the snapshot, both in the live first column, full
coverage −500/1200), yet `headers.index("Adjustment Note")` raises, the
except-branch returns a single error result, and nothing is written — not
the claimed success result with cell writes 0 and 700. -/
def c1BadSheet : List LiveRow :=
  [⟨"MCF Number", ["Net Profit/Loss", "Adjusted P&L"]⟩,
   ⟨"MCF-20250404-1026", ["-500", ""]⟩,
   ⟨"MCF-20250325-0148", ["1200", ""]⟩]

theorem C1_cover_loss_arithmetic_counterexample :
    (execute_sheet_action
        (.coverLoss "MCF-20250404-1026" "MCF-20250325-0148") c1BadSheet c1Df
        "2025-01-01 00:00").1.map OpResult.status = [OpStatus.error] ∧
      (execute_sheet_action
        (.coverLoss "MCF-20250404-1026" "MCF-20250325-0148") c1BadSheet c1Df
        "2025-01-01 00:00").2 = [] ∧
      ¬((execute_sheet_action
        (.coverLoss "MCF-20250404-1026" "MCF-20250325-0148") c1BadSheet c1Df
        "2025-01-01 00:00").1.map OpResult.status = [OpStatus.success]) := by
  refine ⟨by with_unfolding_all decide, by with_unfolding_all decide,
    by with_unfolding_all decide⟩

/-- C3 (amended): a `mark_reviewed` action whose key matches no first-column
cell of a NON-EMPTY live grid appends no result (the returned result list is
empty — neither success nor error) and writes no cell of any data row (only
header-row cells, row 1, may be written when the tracking columns are first
created). -/
theorem C3_mark_reviewed_unknown_key (allData : List LiveRow)
    (df : List MCFRecord) (mcf now : String)
    (hne : allData ≠ [])
    (habs : ∀ r ∈ allData, r.key ≠ mcf) :
    (execute_sheet_action (.markReviewed mcf) allData df now).1 = [] ∧
      ∀ w ∈ (execute_sheet_action (.markReviewed mcf) allData df now).2,
        w.row = 1 := by
  cases allData with
  | nil => exact absurd rfl hne
  | cons hrow rows =>
    have hidx : findFirstIdx mcf (hrow :: rows) 1 = none :=
      findFirstIdx_eq_none mcf (hrow :: rows) 1 habs
    simp only [execute_sheet_action, hidx]
    cases hr : pyIndex (liveHeaders hrow) "Review Status" with
    | none =>
      simp only [hr]
      refine ⟨trivial, ?_⟩
      intro w hwm
      simp only [List.mem_cons, List.not_mem_nil, or_false] at hwm
      rcases hwm with h | h <;> subst h <;> rfl
    | some si =>
      simp only [hr]
      exact ⟨trivial, by intro w hwm; simp at hwm⟩

theorem C3_mark_reviewed_unknown_key_witness :
    (execute_sheet_action (.markReviewed "MCF-20250101-0099")
        [⟨"MCF Number", []⟩, ⟨"MCF-20250101-0001", []⟩] [] "t").1 = [] ∧
      ∀ w ∈ (execute_sheet_action (.markReviewed "MCF-20250101-0099")
        [⟨"MCF Number", []⟩, ⟨"MCF-20250101-0001", []⟩] [] "t").2, w.row = 1 :=
  C3_mark_reviewed_unknown_key
    [⟨"MCF Number", []⟩, ⟨"MCF-20250101-0001", []⟩] [] "MCF-20250101-0099" "t"
    (by decide) (by decide)

/-- C3 counterexample: on an EMPTY live grid the key trivially matches no
row, but `all_data[0]` raises IndexError and the except-branch returns one
error result — the claim's "appends no result" is false there. -/
theorem C3_mark_reviewed_unknown_key_counterexample :
    (execute_sheet_action (.markReviewed "MCF-20250101-0099") [] [] "t").1.map
        OpResult.status = [OpStatus.error] ∧
      ¬((execute_sheet_action (.markReviewed "MCF-20250101-0099") [] [] "t").1 = []) := by
  exact ⟨rfl, by decide⟩

/-- C4: a `cover_loss` action with at least one key absent from the
snapshot returns exactly one result, that result has status error, and no
cell is written (the lookup precedes every write). -/
theorem C4_cover_loss_error_before_write (allData : List LiveRow)
    (df : List MCFRecord) (lossMcf profitMcf now : String)
    (h : findRec df lossMcf = none ∨ findRec df profitMcf = none) :
    ∃ m, execute_sheet_action (.coverLoss lossMcf profitMcf) allData df now =
      ([⟨OpStatus.error, m, []⟩], []) := by
  cases allData with
  | nil => exact ⟨"❌ Error: list index out of range", rfl⟩
  | cons hrow rows =>
    refine ⟨"❌ MCF numbers not found: " ++ lossMcf ++ " or " ++ profitMcf, ?_⟩
    rcases h with h | h
    · cases hp : findRec df profitMcf <;>
        simp [execute_sheet_action, h, hp]
    · cases hl : findRec df lossMcf <;>
        simp [execute_sheet_action, h, hl]

theorem C4_cover_loss_error_before_write_witness :
    ∃ m, execute_sheet_action
        (.coverLoss "MCF-20250101-0001" "MCF-20250101-0002") c1Sheet [] "t" =
      ([⟨OpStatus.error, m, []⟩], []) :=
  C4_cover_loss_error_before_write c1Sheet [] "MCF-20250101-0001"
    "MCF-20250101-0002" "t" (Or.inl rfl)

/-! ## Partner search of the responder fragment (src/app.py lines 122-198)

When a partner query carries no MCF key, the responder extracts a partner
name, searches the CP1 Name and CP2 Name columns independently with
`search_in_dataframe`, and unions the row sets, deduplicating by primary key
(`pd.concat([cp1_matches, cp2_matches]).drop_duplicates(subset=['MCF Number'])`,
which keeps the first occurrence of each key).  Each rendered match is
annotated with the role flags `is_cp1` / `is_cp2`, which test membership of
the row's key among each side's matched keys. -/

/-- `drop_duplicates(subset=['MCF Number'])`: keep the first record seen for
each key; `seen` accumulates the keys already kept. -/
def dedupByKey : List MCFRecord → List String → List MCFRecord
  | [], _ => []
  | r :: rs, seen =>
    if r.mcfNumber ∈ seen then dedupByKey rs seen
    else r :: dedupByKey rs (r.mcfNumber :: seen)

/-- `cp1_matches = search_in_dataframe(results_df, 'CP1 Name', partner_name)`
on the typed snapshot (the CP1 Name column always exists there). -/
def cp1Matches (df : List MCFRecord) (partnerName : String) : List MCFRecord :=
  tieredSearch (fun r => r.cp1Name) df partnerName

/-- `cp2_matches = search_in_dataframe(results_df, 'CP2 Name', partner_name)`. -/
def cp2Matches (df : List MCFRecord) (partnerName : String) : List MCFRecord :=
  tieredSearch (fun r => r.cp2Name) df partnerName

/-- `all_matches`: the union of the two match lists deduplicated by key. -/
def partnerAllMatches (df : List MCFRecord) (partnerName : String) : List MCFRecord :=
  dedupByKey (cp1Matches df partnerName ++ cp2Matches df partnerName) []

/-- `is_cp1 = row['MCF Number'] in cp1_matches['MCF Number'].values`. -/
def isCp1Flag (df : List MCFRecord) (partnerName : String) (r : MCFRecord) : Bool :=
  ((cp1Matches df partnerName).map (fun x => x.mcfNumber)).contains r.mcfNumber

/-- `is_cp2 = row['MCF Number'] in cp2_matches['MCF Number'].values`. -/
def isCp2Flag (df : List MCFRecord) (partnerName : String) (r : MCFRecord) : Bool :=
  ((cp2Matches df partnerName).map (fun x => x.mcfNumber)).contains r.mcfNumber

theorem dedupByKey_count_seen (l : List MCFRecord) (seen : List String)
    (k : String) (hs : k ∈ seen) :
    ((dedupByKey l seen).filter (fun x => x.mcfNumber == k)).length = 0 := by
  induction l generalizing seen with
  | nil => rfl
  | cons r rs ih =>
    simp only [dedupByKey]
    by_cases hr : r.mcfNumber ∈ seen
    · rw [if_pos hr]
      exact ih seen hs
    · rw [if_neg hr]
      have hrk : (r.mcfNumber == k) = false := by
        refine beq_eq_false_iff_ne.mpr ?_
        intro he
        exact hr (he ▸ hs)
      simp only [List.filter_cons, hrk, Bool.false_eq_true, if_false]
      exact ih (r.mcfNumber :: seen) (List.mem_cons_of_mem _ hs)

theorem dedupByKey_count_new (l : List MCFRecord) (seen : List String)
    (k : String) (hs : k ∉ seen) :
    ((dedupByKey l seen).filter (fun x => x.mcfNumber == k)).length =
      if k ∈ l.map (fun x => x.mcfNumber) then 1 else 0 := by
  induction l generalizing seen with
  | nil => rfl
  | cons r rs ih =>
    simp only [dedupByKey, List.map]
    by_cases hr : r.mcfNumber ∈ seen
    · have hne : r.mcfNumber ≠ k := fun he => hs (he ▸ hr)
      rw [if_pos hr, ih seen hs]
      by_cases hk : k ∈ rs.map (fun x => x.mcfNumber)
      · rw [if_pos hk, if_pos (List.mem_cons_of_mem _ hk)]
      · rw [if_neg hk, if_neg (by
          intro hm
          rcases List.mem_cons.mp hm with h | h
          · exact hne h.symm
          · exact hk h)]
    · rw [if_neg hr]
      by_cases he : r.mcfNumber = k
      · subst he
        simp only [List.filter_cons, beq_self_eq_true, if_true, List.length_cons]
        rw [if_pos (List.mem_cons_self _ _)]
        have h0 := dedupByKey_count_seen rs (r.mcfNumber :: seen) r.mcfNumber
          (List.mem_cons_self _ _)
        omega
      · have hrk : (r.mcfNumber == k) = false := beq_eq_false_iff_ne.mpr he
        simp only [List.filter_cons, hrk, Bool.false_eq_true, if_false]
        rw [ih (r.mcfNumber :: seen) (by
          intro hm
          rcases List.mem_cons.mp hm with h | h
          · exact he h.symm
          · exact hs h)]
        by_cases hk : k ∈ rs.map (fun x => x.mcfNumber)
        · rw [if_pos hk, if_pos (List.mem_cons_of_mem _ hk)]
        · rw [if_neg hk, if_neg (by
            intro hm
            rcases List.mem_cons.mp hm with h | h
            · exact he h.symm
            · exact hk h)]

theorem tieredSearch_exact_tier (get : α → String) (rows : List α) (q : String)
    (r : α) (hr : r ∈ rows) (h : pyLower (get r) = pyStrip (pyLower q)) :
    tieredSearch get rows q =
      rows.filter (fun x => pyLower (get x) == pyStrip (pyLower q)) ∧
      r ∈ tieredSearch get rows q := by
  have hmem : r ∈ rows.filter (fun x => pyLower (get x) == pyStrip (pyLower q)) :=
    List.mem_filter.mpr ⟨hr, by simp [h]⟩
  have hne : (rows.filter (fun x => pyLower (get x) == pyStrip (pyLower q))).isEmpty
      = false := by
    cases hfe : rows.filter (fun x => pyLower (get x) == pyStrip (pyLower q)) with
    | nil => rw [hfe] at hmem; exact absurd hmem (List.not_mem_nil r)
    | cons a t => rfl
  have heq : tieredSearch get rows q =
      rows.filter (fun x => pyLower (get x) == pyStrip (pyLower q)) := by
    simp only [tieredSearch, hne, Bool.false_eq_true, if_false]
  exact ⟨heq, heq ▸ hmem⟩

/-- C7: a record in which the queried entity name appears (case-insensitively,
exactly) as both CP1 and CP2 contributes its key exactly once to
`all_matches` (the union of the CP1 and CP2 search results deduplicated by
primary key), and its rendered entry is annotated with both roles
(`is_cp1` and `is_cp2` both set). -/
theorem C7_partner_union_dedup (df : List MCFRecord) (r : MCFRecord) (q : String)
    (hr : r ∈ df)
    (h1 : pyLower r.cp1Name = pyStrip (pyLower q))
    (h2 : pyLower r.cp2Name = pyStrip (pyLower q)) :
    ((partnerAllMatches df q).filter
        (fun x => x.mcfNumber == r.mcfNumber)).length = 1 ∧
      isCp1Flag df q r = true ∧ isCp2Flag df q r = true := by
  have hc1 := tieredSearch_exact_tier (fun x => x.cp1Name) df q r hr h1
  have hc2 := tieredSearch_exact_tier (fun x => x.cp2Name) df q r hr h2
  have hm1 : r ∈ cp1Matches df q := hc1.2
  have hm2 : r ∈ cp2Matches df q := hc2.2
  have hmm1 : r.mcfNumber ∈ (cp1Matches df q).map (fun x => x.mcfNumber) :=
    List.mem_map.mpr ⟨r, hm1, rfl⟩
  have hmm2 : r.mcfNumber ∈ (cp2Matches df q).map (fun x => x.mcfNumber) :=
    List.mem_map.mpr ⟨r, hm2, rfl⟩
  refine ⟨?_, ?_, ?_⟩
  · rw [partnerAllMatches, dedupByKey_count_new _ _ _ (List.not_mem_nil _)]
    rw [if_pos (by
      rw [List.map_append]
      exact List.mem_append_left _ hmm1)]
  · simp only [isCp1Flag]
    simpa using hmm1
  · simp only [isCp2Flag]
    simpa using hmm2

/-- A one-record table in which the same entity is both CP1 and CP2. -/
def c7Df : List MCFRecord :=
  [{ mcfNumber := "MCF-20250101-0007", customerName := "Acme",
     cp1Name := "Kaushalya", cp2Name := "Kaushalya" }]

theorem C7_partner_union_dedup_witness :
    ((partnerAllMatches c7Df "Kaushalya").filter
        (fun x => x.mcfNumber == "MCF-20250101-0007")).length = 1 ∧
      isCp1Flag c7Df "Kaushalya"
        { mcfNumber := "MCF-20250101-0007", customerName := "Acme",
          cp1Name := "Kaushalya", cp2Name := "Kaushalya" } = true ∧
      isCp2Flag c7Df "Kaushalya"
        { mcfNumber := "MCF-20250101-0007", customerName := "Acme",
          cp1Name := "Kaushalya", cp2Name := "Kaushalya" } = true :=
  C7_partner_union_dedup c7Df
    { mcfNumber := "MCF-20250101-0007", customerName := "Acme",
      cp1Name := "Kaushalya", cp2Name := "Kaushalya" } "Kaushalya"
    (by simp [c7Df]) (by with_unfolding_all rfl) (by with_unfolding_all rfl)

/-! ## The chat classifier (`chat_with_ai`, src/app.py lines 826-1146)

The message is classified by substring tests on its lowercased text plus
the MCF keys extracted by `re.findall(r'MCF-\d{8}-\d{4}', msg.upper())`.
Patterns 1-8 produce informational answers; patterns 9 and 10 invoke the
sheet mutator and wrap its results in an action response. -/

/-- Consume exactly `n` decimal digits. -/
def takeDigits : ℕ → List Char → Option (List Char × List Char)
  | 0, cs => some ([], cs)
  | _ + 1, [] => none
  | n + 1, c :: cs =>
    if c.isDigit then (takeDigits n cs).map (fun p => (c :: p.1, p.2)) else none

/-- Match the MCF-key regex at the head of the input; on success return the
matched text and the remaining input. -/
def matchMcfAt : List Char → Option (String × List Char)
  | 'M' :: 'C' :: 'F' :: '-' :: rest =>
    match takeDigits 8 rest with
    | some (d8, '-' :: rest2) =>
      match takeDigits 4 rest2 with
      | some (d4, rest3) =>
        some (String.mk ('M' :: 'C' :: 'F' :: '-' :: (d8 ++ '-' :: d4)), rest3)
      | none => none
    | _ => none
  | _ => none

/-- Left-to-right non-overlapping scan (`re.findall`), fuelled by the
input length. -/
def mcfScanAux : ℕ → List Char → List String
  | 0, _ => []
  | _ + 1, [] => []
  | fuel + 1, c :: cs =>
    match matchMcfAt (c :: cs) with
    | some (tok, rest) => tok :: mcfScanAux fuel rest
    | none => mcfScanAux fuel cs

/-- The MCF keys found in the upper-cased message, in order. -/
def findMcfs (msg : String) : List String :=
  mcfScanAux (pyUpper msg).data.length (pyUpper msg).data

/-- A quote character of the quoted-text regex: a double or single quote. -/
def isQuoteChar (c : Char) : Bool := c == '"' || c.toNat == 39

/-- Scan for the first captured group of the quoted-text regex: the earliest
non-empty run of non-quote characters enclosed between two quote
characters. -/
def firstQuotedAux : ℕ → List Char → Option String
  | 0, _ => none
  | _ + 1, [] => none
  | fuel + 1, c :: cs =>
    if isQuoteChar c then
      let run := cs.takeWhile (fun d => !isQuoteChar d)
      match cs.drop run.length with
      | _ :: _ => if run.isEmpty then firstQuotedAux fuel cs else some (String.mk run)
      | [] => firstQuotedAux fuel cs
    else firstQuotedAux fuel cs

/-- `quoted[0]` of `re.findall` on the quoted-text regex, if any match. -/
def firstQuoted (msg : String) : Option String :=
  firstQuotedAux msg.data.length msg.data

/-- `[w for w in user_message.split() if w.lower() not in stop_words and
len(w) > 2]`. -/
def significantWords (msg : String) (stopWords : List String) : List String :=
  (pySplit msg).filter
    (fun w => !(stopWords.contains (pyLower w)) && decide (w.length > 2))

/-- A structured chat response (the dict returned by `chat_with_ai`: type
"answer" / "error" / "action"), or the one way the function can fail to
return: `raised pat` models an uncaught `re.error`, raised while the
pandas `str.contains` calls of patterns 1 and 5 (src/app.py lines 854 and
979-980, which use the default `regex=True`) compile the extracted query
`pat`; `chat_with_ai` has no try/except, so the exception propagates to
the caller. -/
inductive ChatResponse
  | answer (message : String)
  | error (message : String)
  | action (explanation : String) (results : List OpResult)
  | raised (pattern : String)
deriving DecidableEq

/-- Whether a response is an action (carries executed mutation results). -/
def ChatResponse.isAction : ChatResponse → Bool
  | .action _ _ => true
  | _ => false

/-- Whether a response was returned with type "answer" or "error". -/
def ChatResponse.isAnswerOrError : ChatResponse → Bool
  | .answer _ => true
  | .error _ => true
  | _ => false

/-- The behaviour of the external regular-expression engine on one search
pattern, as consumed by `Series.str.contains(pat)` with its default
`regex=True`: `none` models `re.error` raised while compiling `pat`; 
`some f` is the compiled pattern\x27s search predicate over cell strings.
The engine is an external collaborator (the re module), so `chat_with_ai`
is verified for every engine behaviour. -/
abbrev RegexEngine := String → Option (String → Bool)

/-- One concrete engine behaviour: every pattern compiles and searching is
literal substring containment — the re module\x27s behaviour on patterns
that contain no regex metacharacters. -/
def substrEngine : RegexEngine := fun q => some (fun s => pyIn q s)

/-- An engine behaviour agreeing with the re module on the pattern "(((":
`re.compile("(((")` raises `re.error` (missing closing parenthesis), while
metacharacter-free patterns compile to substring search. -/
def parenErrorEngine : RegexEngine :=
  fun q => if q = "(((" then none else some (fun s => pyIn q s)

/-! Summary figures (PATTERN 8, lines 1045-1068). -/

/-- `results_df['Net Profit/Loss'].sum()`. -/
def totalPL (df : List MCFRecord) : ℚ := (df.map (fun r => r.netProfitLoss)).sum

/-- `len(results_df[results_df['Net Profit/Loss'] > 0])`. -/
def profitableCount (df : List MCFRecord) : ℕ :=
  (df.filter (fun r => r.netProfitLoss > 0)).length

/-- `len(results_df[results_df['Net Profit/Loss'] < 0])`. -/
def lossCount (df : List MCFRecord) : ℕ :=
  (df.filter (fun r => r.netProfitLoss < 0)).length

/-- `results_df['Net Profit/Loss'].max()` (0 on an empty frame, which the
dispatcher rules out). -/
def plMax (df : List MCFRecord) : ℚ :=
  match df.map (fun r => r.netProfitLoss) with
  | [] => 0
  | x :: xs => xs.foldl max x

/-- `results_df['Net Profit/Loss'].min()`. -/
def plMin (df : List MCFRecord) : ℚ :=
  match df.map (fun r => r.netProfitLoss) with
  | [] => 0
  | x :: xs => xs.foldl min x

/-- The fixed-format summary report of PATTERN 8. -/
def summaryMessage (df : List MCFRecord) : String :=
  "**📊 P&L Summary Report:**\n\n" ++
  "**Overall Performance:**\n" ++
  "• Total MCFs: " ++ toString df.length ++ "\n" ++
  "• Total P&L: **₹" ++ fmtMoney (totalPL df) ++ "** " ++
    (if totalPL df > 0 then "✅" else "🔴") ++ "\n" ++
  "• Average P&L: ₹" ++ fmtMoney (totalPL df / (df.length : ℚ)) ++ "\n\n" ++
  "**Deal Breakdown:**\n" ++
  "• Profitable Deals: " ++ toString (profitableCount df) ++ " MCFs (" ++
    fmt1f ((profitableCount df : ℚ) / (df.length : ℚ) * 100) ++ "%)\n" ++
  "• Loss-Making Deals: " ++ toString (lossCount df) ++ " MCFs (" ++
    fmt1f ((lossCount df : ℚ) / (df.length : ℚ) * 100) ++ "%)\n\n" ++
  "**Extremes:**\n" ++
  "• Highest Profit: ₹" ++ fmtMoney (plMax df) ++ "\n" ++
  "• Highest Loss: ₹" ++ fmtMoney (plMin df) ++ "\n"

/-! Sorting by Net Profit/Loss (`sort_values`). -/

/-- Insertion into a list sorted ascending by Net Profit/Loss. -/
def insertByPL (r : MCFRecord) : List MCFRecord → List MCFRecord
  | [] => [r]
  | x :: xs =>
    if r.netProfitLoss ≤ x.netProfitLoss then r :: x :: xs else x :: insertByPL r xs

/-- `sort_values('Net Profit/Loss')` (ascending). -/
def sortByPLAsc (df : List MCFRecord) : List MCFRecord := df.foldr insertByPL []

/-- `sort_values('Net Profit/Loss', ascending=False)`. -/
def sortByPLDesc (df : List MCFRecord) : List MCFRecord := (sortByPLAsc df).reverse

/-! Pattern bodies.  Each builds the response message exactly as the
corresponding branch of the source does; `\x27` is the ASCII single
quote. -/

/-- Stop words of chat PATTERN 1 (find MCF by customer name). -/
def chatStop1 : List String :=
  ["what", "is", "the", "mcf", "number", "for", "customer", "client", "named",
   "called", "of", "with", "name"]

/-- The extracted customer query of PATTERN 1: quoted text if present, else
the first three significant words, lowercased. -/
def p1CustomerQuery (um : String) : String :=
  match firstQuoted um with
  | some q => pyLower q
  | none =>
    pyLower (String.intercalate " " ((significantWords um chatStop1).take 3))

/-- PATTERN 1 hit list message (lines 857-863). -/
def p1FoundMessage (cq : String) (hits : List MCFRecord) : String :=
  "**Found " ++ toString hits.length ++ " MCF(s) for customer matching \x27" ++
    cq ++ "\x27:**\n\n" ++
  String.join (hits.map (fun r =>
    "📋 **MCF Number:** " ++ r.mcfNumber ++ "\n" ++
    "   👤 **Customer:** " ++ r.customerName ++ "\n" ++
    "   💰 **P&L:** ₹" ++ fmtMoney r.netProfitLoss ++ "\n" ++
    "   📦 **Product:** " ++ r.loanProduct ++ "\n\n"))

/-- Guard of PATTERN 1. -/
def p1Guard (l : String) : Bool :=
  (pyIn "customer" l || pyIn "client" l || pyIn "name" l) &&
    (pyIn "mcf" l || pyIn "number" l || pyIn "deal" l)

/-- PATTERN 1 (lines 839-866): find MCFs by customer name.  Returns `none`
when it falls through (guard off, or no query text extracted).  Line 854
is `Customer Name.str.lower().str.contains(customer_query, na=False)` with
the default `regex=True`: the query is compiled by the engine `re`; if the
compile raises, the uncaught exception propagates (`.raised`), otherwise
the rows are filtered by the compiled search predicate applied to the
lowercased name. -/
def chatPattern1 (re : RegexEngine) (um l : String) (df : List MCFRecord) :
    Option ChatResponse :=
  if p1Guard l then
    if p1CustomerQuery um = "" then none
    else
      match re (p1CustomerQuery um) with
      | none => some (.raised (p1CustomerQuery um))
      | some f =>
        if (df.filter (fun r => f (pyLower r.customerName))).isEmpty then
          some (.answer ("❌ No MCFs found for customer containing \x27" ++
            p1CustomerQuery um ++ "\x27"))
        else
          some (.answer (p1FoundMessage (p1CustomerQuery um)
            (df.filter (fun r => f (pyLower r.customerName)))))
  else none

/-- Guard of PATTERN 2 (customer by MCF key). -/
def p2Guard (l : String) (mcfs : List String) : Bool :=
  !mcfs.isEmpty &&
    (pyIn "customer" l || pyIn "client" l || pyIn "who" l || pyIn "name" l)

/-- PATTERN 2 message (lines 872-886). -/
def p2Message (mcf : String) (df : List MCFRecord) : String :=
  match findRec df mcf with
  | some r =>
    "**MCF Details: " ++ mcf ++ "**\n\n" ++
    "👤 **Customer:** " ++ r.customerName ++ "\n" ++
    "📦 **Loan Product:** " ++ r.loanProduct ++ "\n" ++
    "💰 **Loan Amount:** ₹" ++ fmtMoney r.loanAmount ++ "\n" ++
    "📊 **Net P&L:** ₹" ++ fmtMoney r.netProfitLoss ++ "\n"
  | none => "❌ MCF " ++ mcf ++ " not found in data"

/-- Guard of PATTERN 3 (channel partners by MCF key). -/
def p3Guard (l : String) (mcfs : List String) : Bool :=
  !mcfs.isEmpty &&
    (pyIn "cp1" l || pyIn "cp2" l || pyIn "channel partner" l ||
      pyIn "partner" l || pyIn "who is" l)

/-- The optional variance line of PATTERN 3. -/
def p3VarLine (v : Option ℚ) : String :=
  match v with
  | some variance =>
    if variance ≠ 0 then
      "   • Variance: ₹" ++ fmtMoney variance ++ " " ++
        (if |variance| > 1000 then "⚠️" else "") ++ "\n"
    else ""
  | none => ""

/-- PATTERN 3 message (lines 889-925): renders CP1 and CP2 name, code and
payouts unconditionally. -/
def p3Message (mcf : String) (df : List MCFRecord) : String :=
  match findRec df mcf with
  | some r =>
    "**Channel Partners for " ++ mcf ++ ":**\n\n" ++
    "**👥 CP1 (Channel Partner 1):**\n" ++
    "   • Name: " ++ r.cp1Name ++ "\n" ++
    "   • Code: " ++ r.cp1Code ++ "\n" ++
    "   • Expected Payout: ₹" ++ fmtMoney r.expectedCp1Payout ++ "\n" ++
    "   • Actual Payout: ₹" ++ fmtMoney r.actualCp1Payout ++ "\n" ++
    p3VarLine r.cp1PayoutVariance ++
    "\n**👥 CP2 (Channel Partner 2):**\n" ++
    "   • Name: " ++ r.cp2Name ++ "\n" ++
    "   • Code: " ++ r.cp2Code ++ "\n" ++
    "   • Expected Payout: ₹" ++ fmtMoney r.expectedCp2Payout ++ "\n" ++
    "   • Actual Payout: ₹" ++ fmtMoney r.actualCp2Payout ++ "\n" ++
    p3VarLine r.cp2PayoutVariance ++
    "\n**📦 Customer:** " ++ r.customerName ++ "\n" ++
    "**💰 Total Deal P&L:** ₹" ++ fmtMoney r.netProfitLoss ++ "\n"
  | none => "❌ MCF " ++ mcf ++ " not found"

/-- Guard of PATTERN 4 (full details by MCF key). -/
def p4Guard (l : String) (mcfs : List String) : Bool :=
  !mcfs.isEmpty &&
    (pyIn "details" l || pyIn "info" l || pyIn "information" l ||
      pyIn "about" l || pyIn "tell me" l)

/-- PATTERN 4 message (lines 927-962). -/
def p4Message (mcf : String) (df : List MCFRecord) : String :=
  match findRec df mcf with
  | some r =>
    "**📋 Complete Details for " ++ mcf ++ "**\n\n" ++
    "**👤 Customer Information:**\n" ++
    "   • Name: " ++ r.customerName ++ "\n" ++
    "   • Product: " ++ r.loanProduct ++ "\n" ++
    "   • Loan Amount: ₹" ++ fmtMoney r.loanAmount ++ "\n\n" ++
    "**💰 Revenue Details:**\n" ++
    "   • Expected Gross Revenue: ₹" ++
      fmtMoney r.expectedDisbursedGrossRevenue ++ "\n" ++
    "   • Actual Gross Revenue: ₹" ++ fmtMoney r.disbursedGrossRevenue ++ "\n" ++
    (match r.revenueVariance with
     | some v => "   • Variance: ₹" ++ fmtMoney v ++ "\n"
     | none => "") ++
    "   • Taxable Amount: ₹" ++ fmtMoney r.taxableAmountInvoice ++ "\n\n" ++
    "**👥 Channel Partners:**\n" ++
    "   • CP1: " ++ r.cp1Name ++ " (₹" ++ fmtMoney r.actualCp1Payout ++ ")\n" ++
    "   • CP2: " ++ r.cp2Name ++ " (₹" ++ fmtMoney r.actualCp2Payout ++ ")\n\n" ++
    "**📊 Bottom Line:**\n" ++
    "   • Net P&L: **₹" ++ fmtMoney r.netProfitLoss ++ "** " ++
      (if r.netProfitLoss > 0 then "✅ Profit"
       else if r.netProfitLoss < 0 then "🔴 Loss" else "⚪ Break-even") ++ "\n" ++
    (if r.payoutStatus ≠ "" then
      "   • Payout Status: " ++ r.payoutStatus ++ "\n" else "")
  | none => "❌ MCF " ++ mcf ++ " not found"

/-- Stop words of chat PATTERN 5 (MCFs by partner name). -/
def chatStop5 : List String :=
  ["show", "me", "all", "mcf", "for", "cp1", "cp2", "partner", "named",
   "called", "is", "the"]

/-- The extracted partner query of PATTERN 5. -/
def p5PartnerQuery (um : String) : String :=
  match firstQuoted um with
  | some q => pyLower q
  | none =>
    pyLower (String.intercalate " " ((significantWords um chatStop5).take 3))

/-- Guard of PATTERN 5. -/
def p5Guard (l : String) : Bool :=
  (pyIn "cp1" l || pyIn "cp2" l || pyIn "partner" l) &&
    (pyIn "mcf" l || pyIn "deals" l || pyIn "how many" l || pyIn "show" l)

/-- `pd.concat(...).drop_duplicates()` with no subset: full-record dedup,
keeping first occurrences. -/
def dedupFull : List MCFRecord → List MCFRecord → List MCFRecord
  | [], _ => []
  | r :: rs, seen =>
    if seen.contains r then dedupFull rs seen else r :: dedupFull rs (r :: seen)

/-- PATTERN 5 hit list message (lines 985-1002). -/
def p5FoundMessage (pq : String) (allm : List MCFRecord) : String :=
  "**Found " ++ toString allm.length ++ " MCF(s) with partner matching \x27" ++
    pq ++ "\x27:**\n\n" ++
  String.join ((allm.take 15).map (fun r =>
    "📋 **" ++ r.mcfNumber ++ "**\n" ++
    "   👤 Customer: " ++ r.customerName ++ "\n" ++
    (if pyIn pq (pyLower r.cp1Name) then
      "   👥 Role: CP1 - " ++ r.cp1Name ++ "\n" ++
      "   💰 Payout: ₹" ++ fmtMoney r.actualCp1Payout ++ "\n"
     else "") ++
    (if pyIn pq (pyLower r.cp2Name) then
      "   👥 Role: CP2 - " ++ r.cp2Name ++ "\n" ++
      "   💰 Payout: ₹" ++ fmtMoney r.actualCp2Payout ++ "\n"
     else "") ++
    "   📊 P&L: ₹" ++ fmtMoney r.netProfitLoss ++ "\n\n")) ++
  (if allm.length > 15 then
    "... and " ++ toString (allm.length - 15) ++ " more MCFs\n" else "")

/-- `all_matches` of PATTERN 5: the CP1 and CP2 name columns filtered by
the compiled search predicate `f` (lines 979-980), concatenated and
deduplicated. -/
def p5AllMatches (f : String → Bool) (df : List MCFRecord) : List MCFRecord :=
  dedupFull
    (df.filter (fun r => f (pyLower r.cp1Name)) ++
      df.filter (fun r => f (pyLower r.cp2Name))) []

/-- PATTERN 5 (lines 964-1006): find MCFs by CP1/CP2 name.  `none` when it
falls through.  Lines 979-980 are `str.contains(partner_query, na=False)`
with the default `regex=True`, so the query is compiled by the engine
(an uncaught `re.error` propagates); the per-row role checks of the hit
message (lines 991 and 995) use the literal Python `in` operator instead,
hence `pyIn` inside `p5FoundMessage` is exact. -/
def chatPattern5 (re : RegexEngine) (um l : String) (df : List MCFRecord) :
    Option ChatResponse :=
  if p5Guard l then
    if p5PartnerQuery um = "" then none
    else
      match re (p5PartnerQuery um) with
      | none => some (.raised (p5PartnerQuery um))
      | some f =>
        if (p5AllMatches f df).isEmpty then
          some (.answer ("❌ No MCFs found with partner matching \x27" ++
            p5PartnerQuery um ++ "\x27"))
        else
          some (.answer (p5FoundMessage (p5PartnerQuery um) (p5AllMatches f df)))
  else none

/-- Guard of PATTERN 6 (show profitable MCFs). -/
def p6Guard (l : String) : Bool := pyIn "profit" l && pyIn "show" l

/-- PATTERN 6 message (lines 1009-1024). -/
def profitListMessage (df : List MCFRecord) : String :=
  let profitDf := sortByPLDesc (df.filter (fun r => r.netProfitLoss > 0))
  if profitDf.isEmpty then "No profitable MCFs found."
  else
    "**📈 Found " ++ toString profitDf.length ++ " profitable MCFs:**\n\n" ++
    String.join ((profitDf.take 20).enum.map (fun p =>
      toString (p.1 + 1) ++ ". **" ++ p.2.mcfNumber ++ "** - " ++
        p.2.customerName ++ "\n" ++
      "   💰 P&L: **₹" ++ fmtMoney p.2.netProfitLoss ++ "**\n" ++
      "   👥 CP1: " ++ p.2.cp1Name ++ "\n\n")) ++
    (if profitDf.length > 20 then
      "... and " ++ toString (profitDf.length - 20) ++ " more profitable MCFs\n"
     else "")

/-- Guard of PATTERN 7 (show loss MCFs). -/
def p7Guard (l : String) : Bool := pyIn "loss" l && pyIn "show" l

/-- PATTERN 7 message (lines 1027-1042). -/
def lossListMessage (df : List MCFRecord) : String :=
  let lossDf := sortByPLAsc (df.filter (fun r => r.netProfitLoss < 0))
  if lossDf.isEmpty then "✅ No loss-making MCFs found!"
  else
    "**📉 Found " ++ toString lossDf.length ++ " loss-making MCFs:**\n\n" ++
    String.join ((lossDf.take 20).enum.map (fun p =>
      toString (p.1 + 1) ++ ". **" ++ p.2.mcfNumber ++ "** - " ++
        p.2.customerName ++ "\n" ++
      "   🔴 Loss: **₹" ++ fmtMoney p.2.netProfitLoss ++ "**\n" ++
      "   👥 CP1: " ++ p.2.cp1Name ++ "\n\n")) ++
    (if lossDf.length > 20 then
      "... and " ++ toString (lossDf.length - 20) ++ " more loss MCFs\n" else "")

/-- Guard of PATTERN 8 (summary). -/
def p8Guard (l : String) : Bool :=
  pyIn "summary" l || (pyIn "total" l && pyIn "pl" l)

/-- Guard of PATTERN 9 (cover loss). -/
def p9Guard (l : String) : Bool := pyIn "cover" l && pyIn "loss" l

/-- PATTERN 9 (lines 1071-1098): pick the two MCFs (explicit, or biggest
loss and biggest profit) and execute a cover_loss action. -/
def chatPattern9 (mcfs : List String) (df : List MCFRecord)
    (allData : List LiveRow) (now : String) : ChatResponse × List Write :=
  if mcfs.length ≥ 2 then
    let lossMcf := mcfs.getD 0 ""
    let profitMcf := mcfs.getD 1 ""
    let acts := execute_sheet_action (.coverLoss lossMcf profitMcf) allData df now
    (.action ("Covering loss from **" ++ lossMcf ++ "** with profit from **" ++
      profitMcf ++ "**") acts.1, acts.2)
  else
    let lossDf := sortByPLAsc (df.filter (fun r => r.netProfitLoss < 0))
    let profitDf := sortByPLDesc (df.filter (fun r => r.netProfitLoss > 0))
    if lossDf.isEmpty then (.answer "✅ No losses to cover!", [])
    else if profitDf.isEmpty then (.answer "❌ No profitable MCFs available.", [])
    else
      let lossMcf := (lossDf.headD {}).mcfNumber
      let profitMcf := (profitDf.headD {}).mcfNumber
      let acts := execute_sheet_action (.coverLoss lossMcf profitMcf) allData df now
      (.action ("Covering loss from **" ++ lossMcf ++ "** with profit from **" ++
        profitMcf ++ "**") acts.1, acts.2)

/-- Guard of PATTERN 10 (mark reviewed). -/
def p10Guard (l : String) : Bool := pyIn "mark" l && pyIn "review" l

/-- PATTERN 10 (lines 1101-1117). -/
def chatPattern10 (mcfs : List String) (df : List MCFRecord)
    (allData : List LiveRow) (now : String) : ChatResponse × List Write :=
  match mcfs with
  | [] => (.error "Please specify an MCF number", [])
  | mcf :: _ =>
    let acts := execute_sheet_action (.markReviewed mcf) allData df now
    (.action ("Marking **" ++ mcf ++ "** as reviewed") acts.1, acts.2)

/-- The fallback help message (lines 1120-1146), with the current record
count and total P&L interpolated. -/
def fallbackMessage (df : List MCFRecord) : String :=
  "I can help you with:\n\n" ++
  "**🔍 Find Information:**\n" ++
  "• \"What is the MCF number for customer ABC Ltd?\"\n" ++
  "• \"Who is the customer for MCF-20250404-1026?\"\n" ++
  "• \"Who is CP1 and CP2 for MCF-20250428-0588?\"\n" ++
  "• \"Show me details of MCF-20250505-1264\"\n" ++
  "• \"Show all MCFs for partner Kaushalya\"\n\n" ++
  "**📊 View Data:**\n" ++
  "• \"Show me all profitable MCFs\"\n" ++
  "• \"Show me all loss MCFs\"\n" ++
  "• \"Give me a summary\"\n\n" ++
  "**✏️ Make Changes:**\n" ++
  "• \"Cover loss from MCF-XXX with MCF-YYY\"\n" ++
  "• \"Mark MCF-XXX as reviewed\"\n\n" ++
  "**Current Stats:**\n" ++
  "• Total MCFs: " ++ toString df.length ++ "\n" ++
  "• Total P&L: ₹" ++ fmtMoney (totalPL df) ++ "\n\n" ++
  "Try asking me something!"

/-- `chat_with_ai(user_message, results_df, spreadsheet, model)`.

Returns the structured response together with the write log of any sheet
action executed on the way (empty for answer/error responses).  `allData`
is the live worksheet grid and `now` the current timestamp, both consumed
only by `execute_sheet_action` in patterns 9 and 10.  `re` is the
behaviour of the external regex engine backing the `regex=True`
`str.contains` calls of patterns 1 and 5; a compile failure there
propagates as a `.raised` outcome.  The generative-model argument of the
source is unused on every reachable path (all branches return before the
fallback would consult it), so it has no counterpart here. -/
def chat_with_ai (re : RegexEngine) (um : String) (df : List MCFRecord)
    (allData : List LiveRow) (now : String) : ChatResponse × List Write :=
  if df.isEmpty then
    (.error "No data loaded. Please ensure Master Reconciliation sheet exists.", [])
  else
    let l := pyLower um
    match chatPattern1 re um l df with
    | some resp => (resp, [])
    | none =>
      let mcfs := findMcfs um
      if p2Guard l mcfs then (.answer (p2Message (mcfs.headD "") df), [])
      else if p3Guard l mcfs then (.answer (p3Message (mcfs.headD "") df), [])
      else if p4Guard l mcfs then (.answer (p4Message (mcfs.headD "") df), [])
      else
        match chatPattern5 re um l df with
        | some resp => (resp, [])
        | none =>
          if p6Guard l then (.answer (profitListMessage df), [])
          else if p7Guard l then (.answer (lossListMessage df), [])
          else if p8Guard l then (.answer (summaryMessage df), [])
          else if p9Guard l then chatPattern9 mcfs df allData now
          else if p10Guard l then chatPattern10 mcfs df allData now
          else (.answer (fallbackMessage df), [])

/-! ## Theorems about the chat dispatcher -/

theorem chatPattern1_no_action (re : RegexEngine) (um l : String)
    (df : List MCFRecord) (r : ChatResponse)
    (h : chatPattern1 re um l df = some r) : r.isAction = false := by
  unfold chatPattern1 at h
  split at h
  · split at h
    · exact absurd h (by simp)
    · split at h
      · injection h with h; subst h; rfl
      · split at h <;> (injection h with h; subst h; rfl)
  · exact absurd h (by simp)

theorem chatPattern5_no_action (re : RegexEngine) (um l : String)
    (df : List MCFRecord) (r : ChatResponse)
    (h : chatPattern5 re um l df = some r) : r.isAction = false := by
  unfold chatPattern5 at h
  split at h
  · split at h
    · exact absurd h (by simp)
    · split at h
      · injection h with h; subst h; rfl
      · split at h <;> (injection h with h; subst h; rfl)
  · exact absurd h (by simp)

theorem chatPattern1_answer (re : RegexEngine) (um l : String)
    (df : List MCFRecord) (r : ChatResponse)
    (h : chatPattern1 re um l df = some r)
    (hre : p1Guard l = true → re (p1CustomerQuery um) ≠ none) :
    r.isAnswerOrError = true := by
  unfold chatPattern1 at h
  split at h
  case isTrue hg =>
    split at h
    · exact absurd h (by simp)
    · split at h
      case h_1 heq => exact absurd heq (hre hg)
      case h_2 =>
        split at h <;> (injection h with h; subst h; rfl)
  case isFalse => exact absurd h (by simp)

theorem chatPattern5_answer (re : RegexEngine) (um l : String)
    (df : List MCFRecord) (r : ChatResponse)
    (h : chatPattern5 re um l df = some r)
    (hre : p5Guard l = true → re (p5PartnerQuery um) ≠ none) :
    r.isAnswerOrError = true := by
  unfold chatPattern5 at h
  split at h
  case isTrue hg =>
    split at h
    · exact absurd h (by simp)
    · split at h
      case h_1 heq => exact absurd heq (hre hg)
      case h_2 =>
        split at h <;> (injection h with h; subst h; rfl)
  case isFalse => exact absurd h (by simp)

/-- C9 (amended): a chat message whose lowercased text does not contain
both "cover" and "loss" as substrings, and does not contain both "mark"
and "review", never yields an action response and never invokes the sheet
mutator — no cell write is issued and the snapshot is untouched (the
classifier is pure) — and, provided that whenever pattern 1 (resp. 5)
could fire its extracted query compiles as a regular expression, the
response has type answer or error.  Without that proviso the uncaught
`re.error` of the `regex=True` contains calls propagates and no response
is returned. -/
theorem C9_frame_no_action (re : RegexEngine) (um : String)
    (df : List MCFRecord) (allData : List LiveRow) (now : String)
    (hdf : df ≠ [])
    (h9 : (pyIn "cover" (pyLower um) && pyIn "loss" (pyLower um)) = false)
    (h10 : (pyIn "mark" (pyLower um) && pyIn "review" (pyLower um)) = false) :
    (chat_with_ai re um df allData now).2 = [] ∧
      (chat_with_ai re um df allData now).1.isAction = false ∧
      ((p1Guard (pyLower um) = true → re (p1CustomerQuery um) ≠ none) →
        (p5Guard (pyLower um) = true → re (p5PartnerQuery um) ≠ none) →
        (chat_with_ai re um df allData now).1.isAnswerOrError = true) := by
  have hde : df.isEmpty = false := by
    cases df with
    | nil => exact absurd rfl hdf
    | cons a t => rfl
  unfold chat_with_ai
  simp only [hde, Bool.false_eq_true, if_false]
  cases hc1 : chatPattern1 re um (pyLower um) df with
  | some r =>
    exact ⟨rfl, chatPattern1_no_action re um (pyLower um) df r hc1,
      fun hre1 _ => chatPattern1_answer re um (pyLower um) df r hc1 hre1⟩
  | none =>
    by_cases h2 : p2Guard (pyLower um) (findMcfs um) = true
    · simp [h2, ChatResponse.isAction, ChatResponse.isAnswerOrError]
    · rw [Bool.not_eq_true] at h2
      by_cases h3 : p3Guard (pyLower um) (findMcfs um) = true
      · simp [h2, h3, ChatResponse.isAction, ChatResponse.isAnswerOrError]
      · rw [Bool.not_eq_true] at h3
        by_cases h4 : p4Guard (pyLower um) (findMcfs um) = true
        · simp [h2, h3, h4, ChatResponse.isAction, ChatResponse.isAnswerOrError]
        · rw [Bool.not_eq_true] at h4
          simp only [h2, h3, h4, Bool.false_eq_true, if_false]
          cases hc5 : chatPattern5 re um (pyLower um) df with
          | some r =>
            exact ⟨rfl, chatPattern5_no_action re um (pyLower um) df r hc5,
              fun _ hre5 => chatPattern5_answer re um (pyLower um) df r hc5 hre5⟩
          | none =>
            by_cases h6 : p6Guard (pyLower um) = true
            · simp [h6, ChatResponse.isAction, ChatResponse.isAnswerOrError]
            · rw [Bool.not_eq_true] at h6
              by_cases h7 : p7Guard (pyLower um) = true
              · simp [h6, h7, ChatResponse.isAction, ChatResponse.isAnswerOrError]
              · rw [Bool.not_eq_true] at h7
                by_cases h8 : p8Guard (pyLower um) = true
                · simp [h6, h7, h8, ChatResponse.isAction,
                    ChatResponse.isAnswerOrError]
                · rw [Bool.not_eq_true] at h8
                  simp only [h6, h7, h8, p9Guard, p10Guard, h9, h10,
                    Bool.false_eq_true, if_false]
                  exact ⟨trivial, rfl, fun _ _ => rfl⟩

theorem C9_frame_no_action_witness :
    (chat_with_ai substrEngine "show me all profitable MCFs"
        [{ mcfNumber := "MCF-20250101-0001", netProfitLoss := 5 }] [] "t").2 = [] ∧
      (chat_with_ai substrEngine "show me all profitable MCFs"
        [{ mcfNumber := "MCF-20250101-0001", netProfitLoss := 5 }] [] "t").1.isAction
        = false ∧
      (chat_with_ai substrEngine "show me all profitable MCFs"
        [{ mcfNumber := "MCF-20250101-0001", netProfitLoss := 5 }] []
          "t").1.isAnswerOrError = true := by
  have h := C9_frame_no_action substrEngine "show me all profitable MCFs"
    [{ mcfNumber := "MCF-20250101-0001", netProfitLoss := 5 }] [] "t"
    (by simp) (by decide) (by decide)
  exact ⟨h.1, h.2.1,
    h.2.2 (fun _ => by simp [substrEngine]) (fun _ => by simp [substrEngine])⟩

/-- C9 counterexample: the message "customer number (((" contains neither
"cover"-and-"loss" nor "mark"-and-"review", the table is non-empty, yet
pattern 1 fires ("customer", "number"), its extracted query is "(((" (the
stop-word filter keeps it), and the re module raises `re.error` compiling
it — the real `chat_with_ai` raises instead of returning a response of
type answer or error, so the claim as stated is false at this input.  The
sheet is still untouched: no write is issued before the raise. -/
theorem C9_frame_no_action_counterexample :
    (pyIn "cover" (pyLower "customer number (((") &&
        pyIn "loss" (pyLower "customer number (((")) = false ∧
      (pyIn "mark" (pyLower "customer number (((") &&
        pyIn "review" (pyLower "customer number (((")) = false ∧
      chat_with_ai parenErrorEngine "customer number ((("
          [{ mcfNumber := "MCF-20250101-0009", netProfitLoss := 5 }] [] "t" =
        (.raised "(((", []) ∧
      (chat_with_ai parenErrorEngine "customer number ((("
          [{ mcfNumber := "MCF-20250101-0009", netProfitLoss := 5 }] []
            "t").1.isAnswerOrError = false ∧
      (chat_with_ai parenErrorEngine "customer number ((("
          [{ mcfNumber := "MCF-20250101-0009", netProfitLoss := 5 }] []
            "t").1.isAction = false := by
  refine ⟨by decide, by decide, ?_, ?_, ?_⟩ <;> with_unfolding_all decide

/-! ## The summary figures (C5) -/

theorem pl_sign_partition (df : List MCFRecord) :
    profitableCount df + lossCount df +
      (df.filter (fun r => r.netProfitLoss = 0)).length = df.length := by
  induction df with
  | nil => rfl
  | cons r rs ih =>
    simp only [profitableCount, lossCount, List.filter_cons] at ih ⊢
    rcases lt_trichotomy r.netProfitLoss 0 with h | h | h
    · have h1 : decide (r.netProfitLoss > 0) = false := by
        simp [not_lt.mpr (le_of_lt h)]
      have h2 : decide (r.netProfitLoss < 0) = true := by simp [h]
      have h3 : decide (r.netProfitLoss = 0) = false := by simp [ne_of_lt h]
      simp only [h1, h2, h3, Bool.false_eq_true, if_false, if_true,
        List.length_cons]
      omega
    · have h1 : decide (r.netProfitLoss > 0) = false := by simp [h]
      have h2 : decide (r.netProfitLoss < 0) = false := by simp [h]
      have h3 : decide (r.netProfitLoss = 0) = true := by simp [h]
      simp only [h1, h2, h3, Bool.false_eq_true, if_false, if_true,
        List.length_cons]
      omega
    · have h1 : decide (r.netProfitLoss > 0) = true := by simp [h]
      have h2 : decide (r.netProfitLoss < 0) = false := by
        simp [not_lt.mpr (le_of_lt h)]
      have h3 : decide (r.netProfitLoss = 0) = false := by
        simp [(ne_of_gt h)]
      simp only [h1, h2, h3, Bool.false_eq_true, if_false, if_true,
        List.length_cons]
      omega

theorem totalPL_sign_split (df : List MCFRecord) :
    totalPL df = totalPL (df.filter (fun r => r.netProfitLoss > 0)) +
      totalPL (df.filter (fun r => r.netProfitLoss < 0)) := by
  induction df with
  | nil => simp [totalPL]
  | cons r rs ih =>
    simp only [totalPL, List.filter_cons, List.map_cons, List.sum_cons] at ih ⊢
    rcases lt_trichotomy r.netProfitLoss 0 with h | h | h
    · have h1 : decide (r.netProfitLoss > 0) = false := by
        simp [not_lt.mpr (le_of_lt h)]
      have h2 : decide (r.netProfitLoss < 0) = true := by simp [h]
      simp only [h1, h2, Bool.false_eq_true, if_false, if_true, List.map_cons,
        List.sum_cons]
      linarith [ih]
    · have h1 : decide (r.netProfitLoss > 0) = false := by simp [h]
      have h2 : decide (r.netProfitLoss < 0) = false := by simp [h]
      simp only [h1, h2, Bool.false_eq_true, if_false]
      rw [h]
      linarith [ih]
    · have h1 : decide (r.netProfitLoss > 0) = true := by simp [h]
      have h2 : decide (r.netProfitLoss < 0) = false := by
        simp [not_lt.mpr (le_of_lt h)]
      simp only [h1, h2, Bool.false_eq_true, if_false, if_true, List.map_cons,
        List.sum_cons]
      linarith [ih]

theorem chatPattern1_none (re : RegexEngine) (um l : String)
    (df : List MCFRecord)
    (h : (p1Guard l && !(p1CustomerQuery um == "")) = false) :
    chatPattern1 re um l df = none := by
  unfold chatPattern1
  cases hg : p1Guard l with
  | false => simp [hg]
  | true =>
    rw [hg, Bool.true_and, Bool.not_eq_false'] at h
    have hq : p1CustomerQuery um = "" := by simpa using h
    simp [hg, hq]

theorem chatPattern5_none (re : RegexEngine) (um l : String)
    (df : List MCFRecord)
    (h : (p5Guard l && !(p5PartnerQuery um == "")) = false) :
    chatPattern5 re um l df = none := by
  unfold chatPattern5
  cases hg : p5Guard l with
  | false => simp [hg]
  | true =>
    rw [hg, Bool.true_and, Bool.not_eq_false'] at h
    have hq : p5PartnerQuery um = "" := by simpa using h
    simp [hg, hq]

/-- The dispatch of `chat_with_ai` reaches the summary pattern: none of the
earlier patterns returns a response (patterns 1 and 5 return only when they
extract a non-empty query) and the summary trigger is present. -/
def reachesSummary (um : String) : Bool :=
  let l := pyLower um
  let mcfs := findMcfs um
  !(p1Guard l && !(p1CustomerQuery um == "")) &&
    !(p2Guard l mcfs) && !(p3Guard l mcfs) && !(p4Guard l mcfs) &&
    !(p5Guard l && !(p5PartnerQuery um == "")) &&
    !(p6Guard l) && !(p7Guard l) && p8Guard l

/-- C5: when the summary rule fires on a non-empty table, the response is
the summary report computed from: record count = number of rows, total P&L
= the signed sum of the Net Profit/Loss column, profitable count = rows
with positive P&L, loss count = rows with negative P&L; break-even rows are
counted in neither (the three sign classes partition the table), and only
the two signed classes contribute to the total. -/
theorem C5_summary_figures (re : RegexEngine) (um : String)
    (df : List MCFRecord) (allData : List LiveRow) (now : String)
    (hdf : df ≠ []) (hs : reachesSummary um = true) :
    chat_with_ai re um df allData now = (.answer (summaryMessage df), []) ∧
      totalPL df = (df.map (fun r => r.netProfitLoss)).sum ∧
      profitableCount df + lossCount df +
        (df.filter (fun r => r.netProfitLoss = 0)).length = df.length ∧
      totalPL df = totalPL (df.filter (fun r => r.netProfitLoss > 0)) +
        totalPL (df.filter (fun r => r.netProfitLoss < 0)) := by
  refine ⟨?_, rfl, pl_sign_partition df, totalPL_sign_split df⟩
  simp only [reachesSummary, Bool.and_eq_true, Bool.not_eq_true'] at hs
  obtain ⟨⟨⟨⟨⟨⟨⟨h1, h2⟩, h3⟩, h4⟩, h5⟩, h6⟩, h7⟩, h8⟩ := hs
  have hde : df.isEmpty = false := by
    cases df with
    | nil => exact absurd rfl hdf
    | cons a t => rfl
  unfold chat_with_ai
  simp only [hde, Bool.false_eq_true, if_false]
  rw [chatPattern1_none re um (pyLower um) df h1]
  simp only [h2, h3, h4, Bool.false_eq_true, if_false]
  rw [chatPattern5_none re um (pyLower um) df h5]
  simp only [h6, h7, h8, Bool.false_eq_true, if_false, if_true]

/-- The three-record table of the end-to-end summary scenario. -/
def c5Df : List MCFRecord :=
  [{ mcfNumber := "MCF-20250101-0001", netProfitLoss := 1000 },
   { mcfNumber := "MCF-20250101-0002", netProfitLoss := -300 },
   { mcfNumber := "MCF-20250101-0003", netProfitLoss := 0 }]

set_option maxRecDepth 20000 in
theorem C5_summary_figures_witness :
    chat_with_ai substrEngine "summary" c5Df [] "t" =
        (.answer (summaryMessage c5Df), []) ∧
      c5Df.length = 3 ∧ totalPL c5Df = 700 ∧
      profitableCount c5Df = 1 ∧ lossCount c5Df = 1 :=
  ⟨(C5_summary_figures substrEngine "summary" c5Df [] "t" (by simp [c5Df])
      (by with_unfolding_all decide)).1,
    by with_unfolding_all decide, by with_unfolding_all decide,
    by with_unfolding_all decide, by with_unfolding_all decide⟩

/-! ## CP2 rendering (C6) -/

/-- A record with no CP2 partner (empty CP2 Name) but ordinary CP1 data. -/
def c6Df : List MCFRecord :=
  [{ mcfNumber := "MCF-20250101-0001", customerName := "Acme",
     cp1Name := "Kaushalya", cp1Code := "CP-01",
     expectedCp1Payout := 100, actualCp1Payout := 100,
     cp2Name := "", netProfitLoss := 50 }]

set_option maxRecDepth 20000 in
/-- C6, the code evaluated at the failing input: for a record whose CP2
Name is empty, the partner pattern of `chat_with_ai` renders the CP2
section with currency-formatted zero payouts ("Expected Payout: ₹0" and
"Actual Payout: ₹0") and the response nowhere states that the record has no
CP2 partner (neither "CP2 partner" nor the "Not available" placeholder
occurs) — the rendering the claim forbids. -/
theorem C6_cp2_rendering_bug :
    chat_with_ai substrEngine "cp1 and cp2 for MCF-20250101-0001" c6Df [] "t" =
        (.answer (p3Message "MCF-20250101-0001" c6Df), []) ∧
      pyIn "• Expected Payout: ₹0" (p3Message "MCF-20250101-0001" c6Df) = true ∧
      pyIn "• Actual Payout: ₹0" (p3Message "MCF-20250101-0001" c6Df) = true ∧
      pyIn "CP2 partner" (p3Message "MCF-20250101-0001" c6Df) = false ∧
      pyIn "Not available" (p3Message "MCF-20250101-0001" c6Df) = false := by
  refine ⟨?_, ?_, ?_, ?_, ?_⟩
  · have hde : c6Df.isEmpty = false := rfl
    have h1 : chatPattern1 substrEngine "cp1 and cp2 for MCF-20250101-0001"
        (pyLower "cp1 and cp2 for MCF-20250101-0001") c6Df = none := by
      with_unfolding_all decide
    have h2 : p2Guard (pyLower "cp1 and cp2 for MCF-20250101-0001")
        (findMcfs "cp1 and cp2 for MCF-20250101-0001") = false := by
      with_unfolding_all decide
    have h3 : p3Guard (pyLower "cp1 and cp2 for MCF-20250101-0001")
        (findMcfs "cp1 and cp2 for MCF-20250101-0001") = true := by
      with_unfolding_all decide
    have h4 : (findMcfs "cp1 and cp2 for MCF-20250101-0001").headD "" =
        "MCF-20250101-0001" := by with_unfolding_all decide
    unfold chat_with_ai
    simp only [hde, Bool.false_eq_true, if_false, h1, h2, h3, h4, if_true]
  · with_unfolding_all decide
  · with_unfolding_all decide
  · with_unfolding_all decide
  · with_unfolding_all decide

end PLRecon
